import Mathlib

/-!
# Verification of `opensora/models/diffusion/dit/dit.py`

A shallow embedding of the DiT (Diffusion Transformer) forward-pass code in
Lean 4, with theorems settling a list of claims about the module.

Conventions of the embedding:
* machine floats are modelled as exact rationals `ℚ`; transcendental
  functions (`sin`, `cos`, `exp`, real powers) and row-wise `softmax`, which
  the code delegates to torch/numpy, are taken as abstract function
  parameters so every statement universally quantifies over them;
* tensors are modelled either as lists of lists (for the small pure
  embedding-table functions) or as total index functions `ℕ → … → ℚ`
  together with explicit shape data (for the 4-D / 5-D tensors);
* Python `assert` / `raise` failures are modelled with `Option` / explicit
  outcome types.
-/

namespace DiTModel

/-- A rank-5 tensor `(B, T, C, H, W)` as carried through `DiT.forward` and
`DiT.forward_with_cfg`: shape data plus a total index function (only the
in-range indices are meaningful). -/
structure T5 where
  b : ℕ
  t : ℕ
  c : ℕ
  h : ℕ
  w : ℕ
  data : ℕ → ℕ → ℕ → ℕ → ℕ → ℚ

/-- Embedding of `DiT.forward_with_cfg` (dit.py lines 426-442), parametrised
by the model's `forward` map `fwd` (an arbitrary function `T5 → T5`, since
the claim quantifies over all models).  The method computes
`half = x[: len(x) // 2]`, `combined = torch.cat([half, half], dim=0)`,
`model_out = forward(combined, …)`, then
`eps, rest = model_out[:, :in_channels], model_out[:, in_channels:]` —
note that dimension 1 of `model_out` is the TIME axis of the
`(B, T, C, H, W)` layout produced by `forward` — then
`cond_eps, uncond_eps = torch.split(eps, len(eps) // 2, dim=0)`,
`half_eps = uncond_eps + cfg_scale * (cond_eps - uncond_eps)`,
`eps = torch.cat([half_eps, half_eps], dim=0)` and finally
`torch.cat([eps, rest], dim=1)`. -/
def forward_with_cfg (fwd : T5 → T5) (in_channels : ℕ) (cfg_scale : ℚ)
    (x : T5) : T5 :=
  let hb := x.b / 2
  let combined : T5 :=
    { x with b := hb + hb,
             data := fun n => if n < hb then x.data n else x.data (n - hb) }
  let mo := fwd combined
  let mb := mo.b / 2
  { mo with data := fun n τ ch i j =>
      if τ < in_channels then
        let m := if n < mb then n else n - mb
        let cond := mo.data m τ ch i j
        let uncond := mo.data (mb + m) τ ch i j
        uncond + cfg_scale * (cond - uncond)
      else mo.data n τ ch i j }

/-- A concrete stand-in model forward map used to evaluate
`forward_with_cfg` on a small example: it returns a tensor of the same
batch/time/height/width dimensions with `out_channels = 2` (a
`learn_sigma` model with `in_channels = 1`), whose value at batch index `n`
is `2` on the first half of the (doubled) batch and `0` on the second
half, independent of the other indices. -/
def exampleFwd : T5 → T5 := fun x =>
  { x with c := 2, data := fun n _ _ _ _ => if n < x.b / 2 then 2 else 0 }

/-- A concrete input batch for the example: `B = 2, T = 2, C = 1, H = W = 1`,
first and second batch halves identical (all zero). -/
def exampleX : T5 :=
  { b := 2, t := 2, c := 1, h := 1, w := 1, data := fun _ _ _ _ _ => 0 }

/-- The `combined = torch.cat([half, half], dim=0)` tensor that
`forward_with_cfg` builds from `exampleX`, written out so the raw model
output `exampleFwd exampleCombined` can be inspected directly. -/
def exampleCombined : T5 :=
  { exampleX with
      b := 2,
      data := fun n => if n < 1 then exampleX.data n else exampleX.data (n - 1) }

/-!
## C2: attribute writes performed by `DiT.forward`

`DiT.forward` (dit.py lines 383-424) performs exactly one attribute
assignment on the model object: `self.t = T // self.patch_size_t`
(line 394).  Everything else it touches (positional tables, block and
embedder parameters) is only read.  We model the model's attribute store
with the field `forward` writes made explicit and all other attributes
collected in an opaque-to-forward component `rest` of arbitrary type. -/

/-- The mutable attribute view of a `DiT` instance: `patch_size_t` (read by
`forward`), the attribute `t` (written by `forward`; `none` on a freshly
constructed model, where `__init__` never sets it), and `rest`, standing
for every other attribute (frozen positional tables, learned parameters,
submodules), none of which `forward` assigns. -/
structure DiTAttrs (α : Type) where
  patch_size_t : ℕ
  t : Option ℕ
  rest : α

/-- The state effect of one call to `DiT.forward` on the model's own
attributes, for an input with time dimension `T`: the single assignment
`self.t = T // self.patch_size_t` (dit.py line 394). -/
def forwardStateEffect {α : Type} (s : DiTAttrs α) (T : ℕ) : DiTAttrs α :=
  { s with t := some (T / s.patch_size_t) }

/-!
## C8: the input-rank check of `DiT.forward`

`forward` begins with `if x.ndim == 4: raise NotImplementedError` and then
unpacks `B, T, C, H, W = x.shape`, which succeeds exactly when the input
has rank 5 and otherwise raises a generic unpacking `ValueError`. -/

/-- Possible outcomes of the input-rank handling at the top of
`DiT.forward`. -/
inductive ShapeOutcome
  | unsupportedShape   -- the explicit `raise NotImplementedError` for 4-D input
  | unpackError        -- `B, T, C, H, W = x.shape` fails (rank ≠ 5)
  | proceed            -- execution continues past the unpacking
deriving DecidableEq, Repr

/-- Embedding of the rank handling of `DiT.forward` (dit.py lines 390-393)
as a function of the input's rank. -/
def forwardShapeCheck (ndim : ℕ) : ShapeOutcome :=
  if ndim = 4 then .unsupportedShape
  else if ndim = 5 then .proceed
  else .unpackError

/-!
## C10: `DiT.unpatchify`

`unpatchify` (dit.py lines 356-369) takes `x : (N, L, p*p*c)`, sets
`h = w = int(x.shape[1] ** 0.5)`, asserts `h * w == x.shape[1]`, reshapes
to `(N, h, w, p, p, c)`, permutes with `einsum('nhwpqc->nchpwq')` and
reshapes to `(N, c, h*p, h*p)`. -/

/-- A rank-4 tensor `(N, C, H, W)`: shape plus index function. -/
structure T4 where
  n : ℕ
  c : ℕ
  h : ℕ
  w : ℕ
  data : ℕ → ℕ → ℕ → ℕ → ℚ

/-- Embedding of `DiT.unpatchify`.  Input is `(N, L, p*p*c)` given as the
two outer dimensions plus an index function `x n l f` (`f` ranges over the
flattened `(p, p, c)` patch dimension in C-contiguous order, matching the
`reshape` in the source).  The `assert h * w == x.shape[1]` becomes
`Option`: `none` models the `AssertionError`.  On success the returned
element at `(n, ch, u, v)` is the source element obtained by inverting the
reshape/einsum chain: patch row `u / p`, patch column `v / p`, in-patch
offset `(u % p, v % p)`, channel `ch`. -/
def unpatchify (c p : ℕ) (N L : ℕ) (x : ℕ → ℕ → ℕ → ℚ) : Option T4 :=
  let h := Nat.sqrt L
  if h * h = L then
    some { n := N, c := c, h := h * p, w := h * p,
           data := fun n ch u v =>
             x n ((u / p) * h + v / p) (((u % p) * p + v % p) * c + ch) }
  else none

/-!
## C3: `DiTBlock.forward` with adaLN-zero initialisation

`DiTBlock.forward` (dit.py lines 235-239) computes
`shift_msa, scale_msa, gate_msa, shift_mlp, scale_mlp, gate_mlp =
self.adaLN_modulation(c).chunk(6, dim=1)` and then two gated residual
updates.  `initialize_weights` (lines 345-348) sets the weight and bias of
the final linear layer of every block's `adaLN_modulation` to zero. -/

/-- `modulate(x, shift, scale) = x * (1 + scale.unsqueeze(1)) +
shift.unsqueeze(1)` (dit.py line 136-137), for one batch element: `x` is a
sequence of hidden vectors indexed `(position, feature)`, `shift`/`scale`
are per-sample vectors broadcast over the sequence axis. -/
def modulate (x : ℕ → ℕ → ℚ) (shift scale : ℕ → ℚ) : ℕ → ℕ → ℚ :=
  fun s i => x s i * (1 + scale i) + shift i

/-- A fully-connected layer `v ↦ W v + bias` with input dimension `n`
(`nn.Linear`). -/
def linearMap (n : ℕ) (W : ℕ → ℕ → ℚ) (bias : ℕ → ℚ) (v : ℕ → ℚ) : ℕ → ℚ :=
  fun i => (∑ j ∈ Finset.range n, W i j * v j) + bias i

/-- One batch element of `DiTBlock.forward`, parametrised over the
submodules the block calls — `attn` (`self.attn(·, attention_mask)` with
the mask fixed), `mlp`, the two parameter-free LayerNorms `norm1`/`norm2`
and the SiLU activation inside `adaLN_modulation`, all of which delegate
to torch and are arbitrary functions here — and over the weight `W` and
bias `bias` of the final `nn.Linear(hidden_size, 6 * hidden_size)` of
`adaLN_modulation`.  The six chunks of `self.adaLN_modulation(c)` produced
by `.chunk(6, dim=1)` are the index ranges `[0,h), [h,2h), …, [5h,6h)` of
its output. -/
def DiTBlockForward (hidden : ℕ)
    (attn mlp norm1 norm2 : (ℕ → ℕ → ℚ) → (ℕ → ℕ → ℚ))
    (silu : (ℕ → ℚ) → (ℕ → ℚ))
    (W : ℕ → ℕ → ℚ) (bias : ℕ → ℚ)
    (x : ℕ → ℕ → ℚ) (c : ℕ → ℚ) : ℕ → ℕ → ℚ :=
  let m := linearMap hidden W bias (silu c)
  let shift_msa := fun i => m i
  let scale_msa := fun i => m (hidden + i)
  let gate_msa := fun i => m (2 * hidden + i)
  let shift_mlp := fun i => m (3 * hidden + i)
  let scale_mlp := fun i => m (4 * hidden + i)
  let gate_mlp := fun i => m (5 * hidden + i)
  let x1 := fun s i =>
    x s i + gate_msa i * attn (modulate (norm1 x) shift_msa scale_msa) s i
  fun s i =>
    x1 s i + gate_mlp i * mlp (modulate (norm2 x1) shift_mlp scale_mlp) s i

/-- The weight of the last layer of every block's `adaLN_modulation` after
`initialize_weights`: `nn.init.constant_(block.adaLN_modulation[-1].weight, 0)`. -/
def adaLNZeroWeight : ℕ → ℕ → ℚ := fun _ _ => 0

/-- The bias of the last layer of every block's `adaLN_modulation` after
`initialize_weights`: `nn.init.constant_(block.adaLN_modulation[-1].bias, 0)`. -/
def adaLNZeroBias : ℕ → ℚ := fun _ => 0

/-!
## C7: attention backend dispatch of `Attention.forward`

The top of dit.py wraps the optional third-party imports in
`try: … except:` blocks; when an import fails the corresponding kernel
name (`parallel_rebased`, `ring_flash_attn_cuda`) stays undefined, so the
branch that calls it raises a `NameError` at first use.  The dispatch
chain itself (lines 94-125) ends in `raise NotImplemented`, which in
Python raises a `TypeError` (the `NotImplemented` constant is not an
exception class) — still an immediate failure, never a fallback. -/

/-- Outcome of one pass through the backend dispatch in
`Attention.forward`: either a backend's computation runs, or an exception
is raised. -/
inductive AttnOutcome
  | computed (backend : String)
  | raised (err : String)
deriving DecidableEq, Repr

/-- The backend strings for which `Attention.forward` has a dispatch
branch. -/
def supportedAttentionModes : List String :=
  ["xformers", "flash", "math", "rebased", "ring"]

/-- Embedding of the dispatch chain of `Attention.forward` (dit.py lines
94-125) as a function of `self.attention_mode` and of whether the optional
`rebased` / `ring` kernel imports succeeded at module load. -/
def attentionModeDispatch (mode : String)
    (rebasedAvailable ringAvailable : Bool) : AttnOutcome :=
  if mode = "xformers" then .computed "xformers"
  else if mode = "flash" then .computed "flash"
  else if mode = "math" then .computed "math"
  else if mode = "rebased" then
    if rebasedAvailable then .computed "rebased"
    else .raised "NameError: parallel_rebased is not defined"
  else if mode = "ring" then
    if ringAvailable then .computed "ring"
    else .raised "NameError: ring_flash_attn_cuda is not defined"
  else .raised "TypeError: raise NotImplemented"

/-!
## C9: the math backend with an all-ones mask

`Attention.forward`, 'math' branch (dit.py lines 106-116):
`attn = (q @ k.transpose(-2, -1)) * self.scale`; if a mask is present the
additive bias `make_attn_bias(attn_mask)` is added; then row-wise softmax,
NaN zero-fill (a no-op in exact arithmetic), attention dropout (identity
when `attn_drop.p = 0`), multiplication with `v` and the output
projection. -/

/-- `Attention.make_attn_bias` (dit.py lines 131-134):
`attn_bias = torch.where(attn_mask == 0, -1e8, attn_mask)` followed by
`attn_bias = torch.where(attn_mask == 1, 0., attn_bias)`, elementwise. -/
def make_attn_bias (mask : ℕ → ℕ → ℚ) : ℕ → ℕ → ℚ := fun i j =>
  let b1 := if mask i j = 0 then -100000000 else mask i j
  if mask i j = 1 then 0 else b1

/-- The 'math' branch of `Attention.forward` for one attention head, with
attention dropout disabled and exact arithmetic (the NaN zero-fill never
fires).  `q`, `k`, `v` are the per-head query/key/value tables after the
(mask-independent) rotary encoding, indexed `(position, channel)`;
`softmaxRow` is the abstract row-wise softmax; `projFn` covers the final
`self.proj` / `self.proj_drop` application.  With `mask = none` the bias
step is skipped, exactly as in the source. -/
def mathAttention (seqLen headDim : ℕ)
    (softmaxRow : (ℕ → ℚ) → (ℕ → ℚ))
    (projFn : (ℕ → ℕ → ℚ) → (ℕ → ℕ → ℚ))
    (scale : ℚ) (q k v : ℕ → ℕ → ℚ)
    (mask : Option (ℕ → ℕ → ℚ)) : ℕ → ℕ → ℚ :=
  let scores : ℕ → ℕ → ℚ :=
    fun i j => (∑ d ∈ Finset.range headDim, q i d * k j d) * scale
  let biased : ℕ → ℕ → ℚ :=
    match mask with
    | none => scores
    | some m => fun i j => scores i j + make_attn_bias m i j
  let attnW : ℕ → ℕ → ℚ := fun i => softmaxRow (biased i)
  projFn (fun i d => ∑ j ∈ Finset.range seqLen, attnW i j * v j d)

/-!
## C4: `get_1d_sincos_pos_embed_from_grid`

dit.py lines 483-501: `assert embed_dim % 2 == 0`;
`omega = np.arange(embed_dim // 2); omega /= embed_dim / 2.;
omega = 1. / 10000**omega; out = np.einsum('m,d->md', pos, omega);
emb = np.concatenate([np.sin(out), np.cos(out)], axis=1)`. -/

/-- Embedding of `get_1d_sincos_pos_embed_from_grid`.  `sinf`/`cosf`
abstract numpy's `sin`/`cos` and `pw` abstracts the real power
`e ↦ 10000 ** e`; the failing `assert` for odd `embed_dim` becomes
`none`. -/
def get_1d_sincos_pos_embed_from_grid (sinf cosf pw : ℚ → ℚ)
    (embed_dim : ℕ) (pos : List ℚ) : Option (List (List ℚ)) :=
  if embed_dim % 2 = 0 then
    let freqs := (List.range (embed_dim / 2)).map
      (fun (i : ℕ) => 1 / pw ((i : ℚ) / ((embed_dim / 2 : ℕ) : ℚ)))
    some (pos.map (fun p =>
      (freqs.map fun f => sinf (p * f)) ++ (freqs.map fun f => cosf (p * f))))
  else none

/-!
## C5: `TimestepEmbedder.timestep_embedding`

dit.py lines 157-176: `half = dim // 2;
freqs = torch.exp(-math.log(max_period) * torch.arange(half) / half);
args = t[:, None].float() * freqs[None];
embedding = torch.cat([torch.cos(args), torch.sin(args)], dim=-1)`, and if
`dim % 2` one zero column is appended. -/

/-- Embedding of `TimestepEmbedder.timestep_embedding`.  `cosf`, `sinf`,
`expf` abstract torch's `cos`/`sin`/`exp`; `logMaxPeriod` stands for
`math.log(max_period)`. -/
def timestep_embedding (cosf sinf expf : ℚ → ℚ) (logMaxPeriod : ℚ)
    (t : List ℚ) (dim : ℕ) : List (List ℚ) :=
  let half := dim / 2
  let freqs := (List.range half).map fun (i : ℕ) =>
    expf (-logMaxPeriod * (i : ℚ) / ((half : ℕ) : ℚ))
  let rows := t.map fun tv =>
    let args := freqs.map fun f => tv * f
    args.map cosf ++ args.map sinf
  if dim % 2 = 1 then rows.map (fun r => r ++ [0]) else rows

/-!
## C6: `LabelEmbedder.token_drop` and `LabelEmbedder.forward`

dit.py lines 195-211.  `token_drop`: with no `force_drop_ids`,
`drop_ids = torch.rand(labels.shape[0]) < self.dropout_prob` (the sampler
is modelled by an explicit list `rand` of draws in `[0, 1)`); otherwise
`drop_ids = force_drop_ids == 1`; then
`labels = torch.where(drop_ids, self.num_classes, labels)`.
`forward`: `use_dropout = self.dropout_prob > 0;
if (train and use_dropout) or (force_drop_ids is not None):
labels = self.token_drop(labels, force_drop_ids)`. -/

/-- Embedding of `LabelEmbedder.token_drop`.  The unconditional id is
`num_classes` itself, as in the source. -/
def token_drop (num_classes : ℤ) (dropout_prob : ℚ) (rand : List ℚ)
    (labels : List ℤ) (force_drop_ids : Option (List ℤ)) : List ℤ :=
  let dropIds : List Bool :=
    match force_drop_ids with
    | none => rand.map fun ri => decide (ri < dropout_prob)
    | some f => f.map fun fi => decide (fi = 1)
  (dropIds.zip labels).map fun dl => if dl.1 then num_classes else dl.2

/-- The label-resolution part of `LabelEmbedder.forward` (the subsequent
embedding-table lookup is applied positionwise to the result and does not
affect which labels were replaced). -/
def labelEmbedderForwardLabels (num_classes : ℤ) (dropout_prob : ℚ)
    (train : Bool) (rand : List ℚ) (labels : List ℤ)
    (force_drop_ids : Option (List ℤ)) : List ℤ :=
  if (train && decide (0 < dropout_prob)) || force_drop_ids.isSome then
    token_drop num_classes dropout_prob rand labels force_drop_ids
  else labels

end DiTModel

namespace DiTModel

/-- C1 (code evaluation at the failing input).  The guidance selection in
`forward_with_cfg` happens along dimension 1 of the 5-D model output,
which is the TIME axis, not the channel axis.  Concretely, with
`in_channels = 1`, a `learn_sigma` model (`out_channels = 2`), `T = 2`,
`cfg_scale = 3`, a forward map whose conditional half outputs `2` and
unconditional half outputs `0` everywhere:
* the learned-variance channel `ch = 1` at time `τ = 0` IS blended
  (`uncond + 3*(cond - uncond) = 0 + 3*(2-0) = 6`), although the claim says
  variance channels equal the raw first-half forward output (`2`);
* the first feature channel `ch = 0` at time `τ = 1` is NOT blended (it
  equals the raw conditional output `2`), although the claim says the first
  `in_channels` feature channels are guided (the blend there would be `6`).
So guidance is keyed on the time index, not the channel index. -/
theorem forward_with_cfg_slices_time_axis :
    (forward_with_cfg exampleFwd 1 3 exampleX).data 0 0 1 0 0 = 6 ∧
    (exampleFwd exampleCombined).data 0 0 1 0 0 = 2 ∧
    (forward_with_cfg exampleFwd 1 3 exampleX).data 0 1 0 0 0 = 2 ∧
    (0 : ℚ) + 3 * ((2 : ℚ) - 0) = 6 := by
  refine ⟨?_, ?_, ?_, by norm_num⟩ <;>
    norm_num [forward_with_cfg, exampleFwd, exampleX, exampleCombined]

/-- C2 (counterexample).  The claim "forward writes no attribute of the
model" is false: on a freshly constructed model (`self.t` not yet set),
`forward` on an input with `T = 4` and `patch_size_t = 1` sets
`self.t = 4`, changing the model's state. -/
theorem forward_writes_t :
    forwardStateEffect (α := Unit) ⟨1, none, ()⟩ 4 ≠ ⟨1, none, ()⟩ := by
  intro h
  have := congrArg DiTAttrs.t h
  simp [forwardStateEffect] at this

/-- C2 (amended).  `DiT.forward`'s only attribute write is
`self.t = T // self.patch_size_t`: every other attribute
(`patch_size_t` and everything collected in `rest`) is unchanged, and the
effect is idempotent, so two successive calls with the same input leave the
model in the same state as one call (the second call observes exactly the
state the first one left). -/
theorem forward_state_effect_only_t {α : Type} (s : DiTAttrs α) (T : ℕ) :
    (forwardStateEffect s T).patch_size_t = s.patch_size_t ∧
    (forwardStateEffect s T).rest = s.rest ∧
    (forwardStateEffect s T).t = some (T / s.patch_size_t) ∧
    forwardStateEffect (forwardStateEffect s T) T = forwardStateEffect s T := by
  refine ⟨rfl, rfl, rfl, ?_⟩
  simp [forwardStateEffect]

/-- C8 (counterexample).  The claim "every input with fewer than 5
dimensions fails with the UnsupportedShape error" is false: a 3-D input
does fail, but through the generic tuple-unpacking error at
`B, T, C, H, W = x.shape`, not through the explicit
`raise NotImplementedError` that only guards `ndim == 4`. -/
theorem forwardShapeCheck_three_not_unsupported :
    forwardShapeCheck 3 ≠ ShapeOutcome.unsupportedShape ∧
    forwardShapeCheck 3 = ShapeOutcome.unpackError := by
  constructor <;> decide

/-- C8 (amended).  `DiT.forward` raises the UnsupportedShape error
(`NotImplementedError`) exactly for 4-D input; every other input of rank
below 5 fails with the generic shape-unpacking error instead (so no input
of rank below 5 proceeds); and every 5-D input proceeds past the rank
handling without error. -/
theorem forwardShapeCheck_spec (ndim : ℕ) :
    (forwardShapeCheck ndim = ShapeOutcome.unsupportedShape ↔ ndim = 4) ∧
    (ndim < 5 → forwardShapeCheck ndim ≠ ShapeOutcome.proceed) ∧
    (ndim = 5 → forwardShapeCheck ndim = ShapeOutcome.proceed) := by
  unfold forwardShapeCheck
  refine ⟨?_, ?_, ?_⟩
  · constructor
    · intro h
      by_contra hne
      rw [if_neg hne] at h
      by_cases h5 : ndim = 5 <;> simp [h5] at h
    · intro h; simp [h]
  · intro hlt hpr
    by_cases h4 : ndim = 4
    · simp [h4] at hpr
    · have h5 : ndim ≠ 5 := by omega
      simp [h4, h5] at hpr
  · intro h; simp [h]

/-- C8 witness: instantiation of the amended theorem at rank 3. -/
theorem forwardShapeCheck_spec_witness :
    (3 < 5 → forwardShapeCheck 3 ≠ ShapeOutcome.proceed) ∧
    (forwardShapeCheck 3 = ShapeOutcome.unsupportedShape ↔ 3 = 4) :=
  ⟨(forwardShapeCheck_spec 3).2.1, (forwardShapeCheck_spec 3).1⟩

/-- C10.  `DiT.unpatchify` on input `(N, L, p*p*c)` succeeds exactly when
`L` is a perfect square (the code asserts `h * w == L` with
`h = w = ⌊√L⌋`), and on success returns a square spatial tensor of shape
`(N, out_channels, h*p, h*p)`. -/
theorem unpatchify_spec (c p N L : ℕ) (x : ℕ → ℕ → ℕ → ℚ) :
    ((∃ y, unpatchify c p N L x = some y) ↔ ∃ m, m * m = L) ∧
    (∀ y, unpatchify c p N L x = some y →
      y.n = N ∧ y.c = c ∧ y.h = Nat.sqrt L * p ∧ y.w = Nat.sqrt L * p) := by
  constructor
  · constructor
    · rintro ⟨y, hy⟩
      unfold unpatchify at hy
      by_cases h : Nat.sqrt L * Nat.sqrt L = L
      · exact ⟨Nat.sqrt L, h⟩
      · simp [h] at hy
    · rintro ⟨m, hm⟩
      have hs : Nat.sqrt L = m := by rw [← hm, Nat.sqrt_eq]
      have h : Nat.sqrt L * Nat.sqrt L = L := by rw [hs, hm]
      exact ⟨_, by unfold unpatchify; rw [if_pos h]⟩
  · intro y hy
    unfold unpatchify at hy
    by_cases h : Nat.sqrt L * Nat.sqrt L = L
    · rw [if_pos h] at hy
      cases hy
      exact ⟨rfl, rfl, rfl, rfl⟩
    · simp [h] at hy

/-- Helper for C4: for even `d` the exponent `i / (d / 2)` computed by the
code equals the spec's `2 * i / d` (as exact rationals). -/
lemma sincos_exponent_eq {d : ℕ} (hd : d % 2 = 0) (i : ℕ) :
    ((i : ℚ) / ((d / 2 : ℕ) : ℚ)) = (((2 * i : ℕ) : ℚ) / (d : ℚ)) := by
  obtain ⟨k, hk⟩ := Nat.dvd_of_mod_eq_zero hd
  subst hk
  rw [Nat.mul_div_cancel_left k (by norm_num : 0 < (2 : ℕ))]
  push_cast
  rw [mul_div_mul_left _ _ (two_ne_zero)]

/-- C4.  For even `dim`, `get_1d_sincos_pos_embed_from_grid` returns a
`(len(pos), dim)` table whose row for position `p` is the concatenation of
the sin half and the cos half of the angles `p / 10000 ^ (2 i / dim)` for
`i ∈ [0, dim/2)`; for odd `dim` it fails (the `assert`); and repeated
calls with identical arguments give identical results. -/
theorem sincos_1d_spec (sinf cosf pw : ℚ → ℚ) (d : ℕ) (pos : List ℚ) :
    (d % 2 = 0 →
      get_1d_sincos_pos_embed_from_grid sinf cosf pw d pos =
        some (pos.map fun p =>
          ((List.range (d / 2)).map fun (i : ℕ) =>
            sinf (p / pw (((2 * i : ℕ) : ℚ) / (d : ℚ)))) ++
          ((List.range (d / 2)).map fun (i : ℕ) =>
            cosf (p / pw (((2 * i : ℕ) : ℚ) / (d : ℚ)))))) ∧
    (∀ out, get_1d_sincos_pos_embed_from_grid sinf cosf pw d pos = some out →
      out.length = pos.length ∧ ∀ r ∈ out, r.length = d) ∧
    (d % 2 = 1 → get_1d_sincos_pos_embed_from_grid sinf cosf pw d pos = none) ∧
    get_1d_sincos_pos_embed_from_grid sinf cosf pw d pos =
      get_1d_sincos_pos_embed_from_grid sinf cosf pw d pos := by
  refine ⟨?_, ?_, ?_, rfl⟩
  · intro hd
    unfold get_1d_sincos_pos_embed_from_grid
    rw [if_pos hd]
    refine congrArg some (List.map_congr_left fun p _ => ?_)
    simp only [List.map_map]
    congr 1
    · refine List.map_congr_left fun i _ => ?_
      simp only [Function.comp_apply]
      rw [mul_one_div, sincos_exponent_eq hd i]
    · refine List.map_congr_left fun i _ => ?_
      simp only [Function.comp_apply]
      rw [mul_one_div, sincos_exponent_eq hd i]
  · intro out hout
    unfold get_1d_sincos_pos_embed_from_grid at hout
    by_cases hd : d % 2 = 0
    · rw [if_pos hd] at hout
      have hout' := Option.some.inj hout
      subst hout'
      refine ⟨by simp, ?_⟩
      intro r hr
      obtain ⟨p, _, rfl⟩ := List.mem_map.mp hr
      simp only [List.length_append, List.length_map, List.length_range]
      omega
    · rw [if_neg hd] at hout
      exact absurd hout (by simp)
  · intro hd
    unfold get_1d_sincos_pos_embed_from_grid
    rw [if_neg (by omega)]

/-- C4 witness: the specification instantiated at `dim = 2` with positions
`[0, 1]` (even case) and at `dim = 3` (odd case), with `sin`, `cos` and
the power function all instantiated to computable stand-ins. -/
theorem sincos_1d_spec_witness :
    ((2 : ℕ) % 2 = 0 ∧
      get_1d_sincos_pos_embed_from_grid id id id 2 [0, 1] =
        some ([0, 1].map fun p =>
          ((List.range 1).map fun (i : ℕ) =>
            id (p / id (((2 * i : ℕ) : ℚ) / (2 : ℚ)))) ++
          ((List.range 1).map fun (i : ℕ) =>
            id (p / id (((2 * i : ℕ) : ℚ) / (2 : ℚ)))))) ∧
    ((3 : ℕ) % 2 = 1 ∧
      get_1d_sincos_pos_embed_from_grid id id id 3 [0] = none) :=
  ⟨⟨rfl, (sincos_1d_spec id id id 2 [0, 1]).1 rfl⟩,
   ⟨rfl, (sincos_1d_spec id id id 3 [0]).2.2.1 rfl⟩⟩

/-- Helper for C5: the row-level description of `timestep_embedding`. -/
lemma timestep_embedding_eq_rows (cosf sinf expf : ℚ → ℚ) (l : ℚ)
    (t : List ℚ) (dim : ℕ) :
    timestep_embedding cosf sinf expf l t dim =
      t.map fun tv =>
        ((List.range (dim / 2)).map fun (i : ℕ) =>
          cosf (tv * expf (-l * (i : ℚ) / ((dim / 2 : ℕ) : ℚ)))) ++
        ((List.range (dim / 2)).map fun (i : ℕ) =>
          sinf (tv * expf (-l * (i : ℚ) / ((dim / 2 : ℕ) : ℚ)))) ++
        (if dim % 2 = 1 then [0] else []) := by
  unfold timestep_embedding
  by_cases hodd : dim % 2 = 1 <;>
    simp [hodd, List.map_map, Function.comp_def, List.append_assoc]

/-- C5.  `TimestepEmbedder.timestep_embedding` returns, per timestep `tv`,
`concat(cos(args), sin(args))` where `args = tv * exp(-log(max_period) *
i / half)` for `i ∈ [0, half)`, `half = dim / 2`, padded with one zero
column when `dim` is odd; and for `t = 0` the cos half is all ones and the
sin half all zeros (given `cos 0 = 1` and `sin 0 = 0`). -/
theorem timestep_embedding_spec (cosf sinf expf : ℚ → ℚ) (l : ℚ)
    (t : List ℚ) (dim : ℕ) :
    (timestep_embedding cosf sinf expf l t dim =
      t.map fun tv =>
        ((List.range (dim / 2)).map fun (i : ℕ) =>
          cosf (tv * expf (-l * (i : ℚ) / ((dim / 2 : ℕ) : ℚ)))) ++
        ((List.range (dim / 2)).map fun (i : ℕ) =>
          sinf (tv * expf (-l * (i : ℚ) / ((dim / 2 : ℕ) : ℚ)))) ++
        (if dim % 2 = 1 then [0] else [])) ∧
    (cosf 0 = 1 → sinf 0 = 0 → ∀ n : ℕ,
      timestep_embedding cosf sinf expf l (List.replicate n 0) dim =
        List.replicate n
          (List.replicate (dim / 2) 1 ++ List.replicate (dim / 2) 0 ++
            (if dim % 2 = 1 then [0] else []))) := by
  refine ⟨timestep_embedding_eq_rows cosf sinf expf l t dim, ?_⟩
  intro hcos hsin n
  rw [timestep_embedding_eq_rows, List.map_replicate]
  congr 1
  simp [hcos, hsin]

/-- C5 witness: the `t = 0` behaviour at `dim = 2` with computable
stand-ins satisfying `cos 0 = 1` and `sin 0 = 0`. -/
theorem timestep_embedding_spec_witness :
    ((fun x => 1 - x : ℚ → ℚ) 0 = 1) ∧ (id (0 : ℚ) = 0) ∧
    timestep_embedding (fun x => 1 - x) id id 0 (List.replicate 1 0) 2 =
      List.replicate 1 (List.replicate 1 1 ++ List.replicate 1 0 ++
        (if 2 % 2 = 1 then [0] else [])) :=
  ⟨by norm_num, rfl,
   (timestep_embedding_spec (fun x => 1 - x) id id 0
      (List.replicate 1 0) 2).2 (by norm_num) rfl 1⟩

/-- Helper for C6: with `force_drop_ids` given, the `where` replaces a
label exactly at the positions where the force vector equals 1. -/
lemma token_drop_force_aux (nc : ℤ) (f ls : List ℤ) :
    ((f.map fun fi => decide (fi = 1)).zip ls).map
        (fun dl => if dl.1 then nc else dl.2) =
      (f.zip ls).map fun q => if q.1 = 1 then nc else q.2 := by
  induction f generalizing ls with
  | nil => simp
  | cons a f ih =>
    cases ls with
    | nil => simp
    | cons b ls => simp [ih]

/-- Helper for C6: with `dropout_prob = 1` every draw in `[0, 1)` passes
`rand < 1`, so every label is replaced. -/
lemma token_drop_all_ones_aux (nc : ℤ) (r : List ℚ) (ls : List ℤ)
    (hlen : r.length = ls.length) (hr : ∀ ri ∈ r, ri < 1) :
    ((r.map fun ri => decide (ri < (1 : ℚ))).zip ls).map
        (fun dl => if dl.1 then nc else dl.2) =
      List.replicate ls.length nc := by
  induction r generalizing ls with
  | nil =>
    cases ls with
    | nil => simp
    | cons b ls => simp at hlen
  | cons a r ih =>
    cases ls with
    | nil => simp at hlen
    | cons b ls =>
      have ha : a < 1 := hr a (by simp)
      have hlen' : r.length = ls.length := by simpa using hlen
      have hr' : ∀ ri ∈ r, ri < 1 := fun ri hri => hr ri (by simp [hri])
      simp [List.replicate_succ, ha, ih ls hlen' hr']

/-- C6.  The label-resolution of `LabelEmbedder.forward`:
with `dropout_prob = 0` and no `force_drop_ids` no label is ever replaced,
whatever the training flag; with `dropout_prob = 1` and `training = True`
every label becomes the unconditional id `num_classes` (each uniform draw
lies in `[0, 1)`, hence below 1); and whenever `force_drop_ids` is
supplied, exactly the positions where it equals 1 are mapped to the
unconditional id, for every training flag and dropout probability. -/
theorem label_embedder_drop_spec (nc : ℤ) (train : Bool) (rand : List ℚ)
    (labels : List ℤ) :
    (labelEmbedderForwardLabels nc 0 train rand labels none = labels) ∧
    ((∀ ri ∈ rand, ri < 1) → rand.length = labels.length →
      labelEmbedderForwardLabels nc 1 true rand labels none =
        List.replicate labels.length nc) ∧
    (∀ (p : ℚ) (f : List ℤ),
      labelEmbedderForwardLabels nc p train rand labels (some f) =
        (f.zip labels).map fun q => if q.1 = 1 then nc else q.2) := by
  refine ⟨?_, ?_, ?_⟩
  · simp [labelEmbedderForwardLabels]
  · intro hr hlen
    unfold labelEmbedderForwardLabels token_drop
    rw [if_pos (by simp [zero_lt_one])]
    exact token_drop_all_ones_aux nc rand labels hlen hr
  · intro p f
    unfold labelEmbedderForwardLabels token_drop
    rw [if_pos (by simp)]
    exact token_drop_force_aux nc f labels

/-- C6 witness: dropout 1 with a concrete in-range draw replaces the only
label, and a concrete force vector `[1, 0]` replaces exactly the first of
two labels. -/
theorem label_embedder_drop_spec_witness :
    ((∀ ri ∈ ([1/2] : List ℚ), ri < 1) ∧
      labelEmbedderForwardLabels 10 1 true [1/2] [3] none =
        List.replicate 1 10) ∧
    (labelEmbedderForwardLabels 10 (1/10) false [1/2] [3, 4] (some [1, 0]) =
      (([1, 0] : List ℤ).zip [3, 4]).map fun q =>
        if q.1 = 1 then 10 else q.2) :=
  ⟨⟨by norm_num,
    (label_embedder_drop_spec 10 true [1/2] [3]).2.1 (by norm_num) rfl⟩,
   (label_embedder_drop_spec 10 false [1/2] [3, 4]).2.2 (1/10) [1, 0]⟩

/-- C3.  On a freshly constructed model, `initialize_weights` zeroes the
weight and bias of the last `adaLN_modulation` layer of every block, so
`self.adaLN_modulation(c)` is the zero vector, all six shift/scale/gate
chunks are zero, and both gated residual additions in `DiTBlock.forward`
contribute zero: the block maps any input sequence `x` and conditioning
vector `c` to exactly `x`, for arbitrary attention, MLP, LayerNorm and
SiLU submodules. -/
theorem ditblock_identity_at_init (hidden : ℕ)
    (attn mlp norm1 norm2 : (ℕ → ℕ → ℚ) → (ℕ → ℕ → ℚ))
    (silu : (ℕ → ℚ) → (ℕ → ℚ)) (x : ℕ → ℕ → ℚ) (c : ℕ → ℚ) :
    DiTBlockForward hidden attn mlp norm1 norm2 silu
      adaLNZeroWeight adaLNZeroBias x c = x := by
  funext s i
  simp [DiTBlockForward, linearMap, adaLNZeroWeight, adaLNZeroBias]

/-- C7.  The backend dispatch of `Attention.forward` fails fast and never
falls back: (a) any mode string outside the supported set reaches the
final `raise`; (b) selecting `rebased` (resp. `ring`) when its optional
kernel import failed raises at first use instead of computing with another
backend; (c) whenever a backend computation does run, it is exactly the
requested one. -/
theorem attention_backend_fail_fast (mode : String)
    (rebasedAvailable ringAvailable : Bool) :
    (mode ∉ supportedAttentionModes →
      attentionModeDispatch mode rebasedAvailable ringAvailable =
        .raised "TypeError: raise NotImplemented") ∧
    (mode = "rebased" → rebasedAvailable = false →
      attentionModeDispatch mode rebasedAvailable ringAvailable =
        .raised "NameError: parallel_rebased is not defined") ∧
    (mode = "ring" → ringAvailable = false →
      attentionModeDispatch mode rebasedAvailable ringAvailable =
        .raised "NameError: ring_flash_attn_cuda is not defined") ∧
    (∀ b, attentionModeDispatch mode rebasedAvailable ringAvailable =
        .computed b → b = mode) := by
  refine ⟨?_, ?_, ?_, ?_⟩
  · intro hmem
    simp [supportedAttentionModes] at hmem
    obtain ⟨h1, h2, h3, h4, h5⟩ := hmem
    simp [attentionModeDispatch, h1, h2, h3, h4, h5]
  · intro h hr; subst h
    simp [attentionModeDispatch, hr]
  · intro h hr; subst h
    simp [attentionModeDispatch, hr]
  · intro b hb
    unfold attentionModeDispatch at hb
    split_ifs at hb with h1 h2 h3 h4 h5 <;>
      first
        | (cases hb; omega)
        | (cases hb; simp_all)

/-- C7 witness: an unsupported mode string, and the `rebased` mode with
its kernel unavailable, both raise. -/
theorem attention_backend_fail_fast_witness :
    ("sdpa" ∉ supportedAttentionModes ∧
      attentionModeDispatch "sdpa" false false =
        .raised "TypeError: raise NotImplemented") ∧
    ("rebased" = "rebased" ∧
      attentionModeDispatch "rebased" false true =
        .raised "NameError: parallel_rebased is not defined") :=
  ⟨⟨by decide, (attention_backend_fail_fast "sdpa" false false).1 (by decide)⟩,
   ⟨rfl, (attention_backend_fail_fast "rebased" false true).2.1 rfl rfl⟩⟩

/-- C9.  The math backend called with an all-ones mask produces output
identical to calling it with no mask: `make_attn_bias` sends every entry
equal to `1` to `0`, so the additive bias vanishes and every downstream
step (softmax, value aggregation, projection) sees identical inputs. -/
theorem all_ones_mask_noop (seqLen headDim : ℕ)
    (softmaxRow : (ℕ → ℚ) → (ℕ → ℚ))
    (projFn : (ℕ → ℕ → ℚ) → (ℕ → ℕ → ℚ))
    (scale : ℚ) (q k v : ℕ → ℕ → ℚ) (m : ℕ → ℕ → ℚ)
    (hm : ∀ i j, m i j = 1) :
    mathAttention seqLen headDim softmaxRow projFn scale q k v (some m) =
      mathAttention seqLen headDim softmaxRow projFn scale q k v none := by
  have hb : ∀ i j, make_attn_bias m i j = 0 := by
    intro i j; simp [make_attn_bias, hm i j]
  simp [mathAttention, hb]

/-- C9 witness: the no-op at a concrete instance (`seqLen = headDim = 1`,
identity softmax and projection, unit inputs, literal all-ones mask). -/
theorem all_ones_mask_noop_witness :
    ((fun _ _ => (1 : ℚ)) = fun (_ _ : ℕ) => (1 : ℚ)) ∧
    mathAttention 1 1 id id 1 (fun _ _ => 1) (fun _ _ => 1) (fun _ _ => 1)
        (some fun _ _ => 1) =
      mathAttention 1 1 id id 1 (fun _ _ => 1) (fun _ _ => 1) (fun _ _ => 1)
        none :=
  ⟨rfl, all_ones_mask_noop 1 1 id id 1 (fun _ _ => 1) (fun _ _ => 1)
    (fun _ _ => 1) (fun _ _ => 1) (fun _ _ => rfl)⟩

/-- C10 witness: the specification evaluated at `c = 2, p = 3, N = 1,
L = 4` (a perfect square), on the zero tensor. -/
theorem unpatchify_spec_witness :
    ((∃ y, unpatchify 2 3 1 4 (fun _ _ _ => 0) = some y) ↔ ∃ m, m * m = 4) ∧
    (∀ y, unpatchify 2 3 1 4 (fun _ _ _ => 0) = some y →
      y.n = 1 ∧ y.c = 2 ∧ y.h = Nat.sqrt 4 * 3 ∧ y.w = Nat.sqrt 4 * 3) :=
  unpatchify_spec 2 3 1 4 (fun _ _ _ => 0)

end DiTModel
